import Mathlib

/-!
Verification development for the `trustpay` Python client library
(`trustpay/client.py`, `trustpay/__init__.py`).

The embedding is shallow: Python byte strings are `List Nat` (each entry a
byte value), Python `str` is Lean `String`, machine integers are `Nat`/`Int`
with explicit `% 2 ^ 32` where overflow matters, and fallible code returns
`Except`/`Option`.  The HTTP transport is an explicit oracle
`Request → Response`; every client operation returns the result together
with the list of HTTP requests it issued, in order.
-/

set_option maxRecDepth 1000000
set_option maxHeartbeats 4000000

namespace TP

/-! ## 32-bit arithmetic helpers (SHA-256 works on 32-bit words) -/

/-- Truncate to a 32-bit word. -/
def w32 (n : Nat) : Nat := n % 4294967296

/-- Complement of a 32-bit word (no borrow can occur since `w32 x ≤ 2 ^ 32 - 1`). -/
def bnot32 (x : Nat) : Nat := 4294967295 - w32 x

/-- Right rotation of a 32-bit word.  The two shifted parts occupy disjoint
bits, so ordinary addition realises their union. -/
def rotr (n x : Nat) : Nat := x / 2 ^ n + w32 (x * 2 ^ (32 - n))

/-- Logical right shift. -/
def shr (n x : Nat) : Nat := x / 2 ^ n

/-! ## SHA-256 (FIPS 180-4), as used by Python's `hashlib.sha256` -/

def ch32 (x y z : Nat) : Nat := (x &&& y) ^^^ (bnot32 x &&& z)

def maj32 (x y z : Nat) : Nat := (x &&& y) ^^^ (x &&& z) ^^^ (y &&& z)

def bigSigma0 (x : Nat) : Nat := rotr 2 x ^^^ rotr 13 x ^^^ rotr 22 x

def bigSigma1 (x : Nat) : Nat := rotr 6 x ^^^ rotr 11 x ^^^ rotr 25 x

def smallSigma0 (x : Nat) : Nat := rotr 7 x ^^^ rotr 18 x ^^^ shr 3 x

def smallSigma1 (x : Nat) : Nat := rotr 17 x ^^^ rotr 19 x ^^^ shr 10 x

/-- The 64 SHA-256 round constants. -/
def K256 : List Nat :=
  [1116352408, 1899447441, 3049323471, 3921009573, 961987163, 1508970993,
   2453635748, 2870763221, 3624381080, 310598401, 607225278, 1426881987,
   1925078388, 2162078206, 2614888103, 3248222580, 3835390401, 4022224774,
   264347078, 604807628, 770255983, 1249150122, 1555081692, 1996064986,
   2554220882, 2821834349, 2952996808, 3210313671, 3336571891, 3584528711,
   113926993, 338241895, 666307205, 773529912, 1294757372, 1396182291,
   1695183700, 1986661051, 2177026350, 2456956037, 2730485921, 2820302411,
   3259730800, 3345764771, 3516065817, 3600352804, 4094571909, 275423344,
   430227734, 506948616, 659060556, 883997877, 958139571, 1322822218,
   1537002063, 1747873779, 1955562222, 2024104815, 2227730452, 2361852424,
   2428436474, 2756734187, 3204031479, 3329325298]

/-- The eight 32-bit working variables of SHA-256. -/
structure H8 where
  a : Nat
  b : Nat
  c : Nat
  d : Nat
  e : Nat
  f : Nat
  g : Nat
  h : Nat

/-- Initial SHA-256 hash state. -/
def initH : H8 :=
  ⟨1779033703, 3144134277, 1013904242, 2773480762,
   1359893119, 2600822924, 528734635, 1541459225⟩

/-- Big-endian 4-byte grouping of a byte list into 32-bit words. -/
def bytesToWords : List Nat → List Nat
  | a :: b :: c :: d :: rest => (((a * 256 + b) * 256 + c) * 256 + d) :: bytesToWords rest
  | _ => []

def wAt (l : List Nat) (i : Nat) : Nat := l.getD i 0

/-- Extend the 16 message-schedule words by `k` further words. -/
def extendW (ws : List Nat) : Nat → List Nat
  | 0 => ws
  | k + 1 =>
      let l := extendW ws k
      l ++ [w32 (smallSigma1 (wAt l (l.length - 2)) + wAt l (l.length - 7) +
                 smallSigma0 (wAt l (l.length - 15)) + wAt l (l.length - 16))]

/-- One SHA-256 round: `kw` is the pair of round constant and schedule word. -/
def roundStep (s : H8) (kw : Nat × Nat) : H8 :=
  let t1 := w32 (s.h + bigSigma1 s.e + ch32 s.e s.f s.g + kw.1 + kw.2)
  let t2 := w32 (bigSigma0 s.a + maj32 s.a s.b s.c)
  ⟨w32 (t1 + t2), s.a, s.b, s.c, w32 (s.d + t1), s.e, s.f, s.g⟩

/-- Compress one 64-byte block into the running hash state. -/
def compressBlock (s : H8) (block : List Nat) : H8 :=
  let ws := extendW (bytesToWords block) 48
  let t := (K256.zip ws).foldl roundStep s
  ⟨w32 (s.a + t.a), w32 (s.b + t.b), w32 (s.c + t.c), w32 (s.d + t.d),
   w32 (s.e + t.e), w32 (s.f + t.f), w32 (s.g + t.g), w32 (s.h + t.h)⟩

/-- Big-endian 8-byte encoding of the bit length. -/
def lenBytes64 (n : Nat) : List Nat :=
  [n / 2 ^ 56 % 256, n / 2 ^ 48 % 256, n / 2 ^ 40 % 256, n / 2 ^ 32 % 256,
   n / 2 ^ 24 % 256, n / 2 ^ 16 % 256, n / 2 ^ 8 % 256, n % 256]

/-- SHA-256 padding: a `0x80` byte, zeros, and the 64-bit message bit length. -/
def pad256 (msg : List Nat) : List Nat :=
  msg ++ 128 :: (List.replicate ((64 - (msg.length + 9) % 64) % 64) 0 ++
                 lenBytes64 (8 * msg.length))

/-- Split into 64-byte blocks (fuel recursion on the list length). -/
def chunksGo : Nat → List Nat → List (List Nat)
  | 0, _ => []
  | _, [] => []
  | fuel + 1, a :: l => (a :: l).take 64 :: chunksGo fuel ((a :: l).drop 64)

def chunks64 (l : List Nat) : List (List Nat) := chunksGo l.length l

/-- Big-endian bytes of one 32-bit word. -/
def wordBytes (n : Nat) : List Nat :=
  [n / 2 ^ 24 % 256, n / 2 ^ 16 % 256, n / 2 ^ 8 % 256, n % 256]

def digestBytes (s : H8) : List Nat :=
  wordBytes s.a ++ wordBytes s.b ++ wordBytes s.c ++ wordBytes s.d ++
  wordBytes s.e ++ wordBytes s.f ++ wordBytes s.g ++ wordBytes s.h

/-- SHA-256 of a byte string. -/
def sha256 (msg : List Nat) : List Nat :=
  digestBytes ((chunks64 (pad256 msg)).foldl compressBlock initH)

/-! ## HMAC-SHA256 (RFC 2104), as used by Python's `hmac.new(key, msg, hashlib.sha256)` -/

/-- HMAC-SHA256 for a byte-string key (block size 64). -/
def hmacSha256 (key msg : List Nat) : List Nat :=
  let k0 := if 64 < key.length then sha256 key else key
  let kp := k0 ++ List.replicate (64 - k0.length) 0
  sha256 (kp.map (fun b => b ^^^ 92) ++ sha256 (kp.map (fun b => b ^^^ 54) ++ msg))

/-! ## Hex rendering (`hexdigest()` then `.upper()`) and UTF-8 -/

/-- Lowercase hex digit, as produced by `hexdigest()`. -/
def hexDigitChar (n : Nat) : Char :=
  if n < 10 then Char.ofNat (48 + n) else Char.ofNat (87 + n)

def hexChars : List Nat → List Char
  | [] => []
  | b :: rest => hexDigitChar (b / 16) :: hexDigitChar (b % 16) :: hexChars rest

/-- Python `code.hexdigest()`: lowercase hexadecimal rendering of a byte string. -/
def hexdigest (bs : List Nat) : String := String.mk (hexChars bs)

/-- Python's `str.upper()` restricted to ASCII data (all strings the client
produces are ASCII hex digests). -/
def pyUpper (s : String) : String := String.mk (s.data.map Char.toUpper)

/-- UTF-8 encoding of one character. -/
def utf8Char (c : Char) : List Nat :=
  let n := c.toNat
  if n < 128 then [n]
  else if n < 2048 then [192 + n / 64, 128 + n % 64]
  else if n < 65536 then [224 + n / 4096, 128 + n / 64 % 64, 128 + n % 64]
  else [240 + n / 262144, 128 + n / 4096 % 64, 128 + n / 64 % 64, 128 + n % 64]

def utf8Aux : List Char → List Nat
  | [] => []
  | c :: rest => utf8Char c ++ utf8Aux rest

/-- Python's `str.encode("utf-8")`. -/
def utf8 (s : String) : List Nat := utf8Aux s.data

/-! ## Validation vectors for the embedded primitives -/

/-- FIPS 180-4 test vector: SHA-256 of the empty message. -/
theorem sha256_empty_vector :
    hexdigest (sha256 []) =
      "e3b0c44298fc1c149afbf4c8996fb92427ae41e4649b934ca495991b7852b855" := by
  decide

/-- FIPS 180-4 test vector: SHA-256 of `"abc"`. -/
theorem sha256_abc_vector :
    hexdigest (sha256 (utf8 "abc")) =
      "ba7816bf8f01cfea414140de5dae2223b00361a396177a9cb410ff61f20015ad" := by
  decide

/-- RFC 4231 test case 2 for HMAC-SHA256. -/
theorem hmac_rfc4231_vector :
    hexdigest (hmacSha256 (utf8 "Jefe") (utf8 "what do ya want for nothing?")) =
      "5bdcc146bf60754e6a042426089575c75a003f089d2739839dec58b964ec3843" := by
  decide

/-! ## Base64 (for the Basic-auth header built by `_prepare_headers`) -/

def b64chars : List Char :=
  String.data "ABCDEFGHIJKLMNOPQRSTUVWXYZabcdefghijklmnopqrstuvwxyz0123456789+/"

def b64t (n : Nat) : Char := b64chars.getD n (Char.ofNat 65)

def base64 : List Nat → List Char
  | [] => []
  | [a] => [b64t (a / 4), b64t (a % 4 * 16), Char.ofNat 61, Char.ofNat 61]
  | [a, b] => [b64t (a / 4), b64t (a % 4 * 16 + b / 16), b64t (b % 16 * 4), Char.ofNat 61]
  | a :: b :: c :: rest =>
      b64t (a / 4) :: b64t (a % 4 * 16 + b / 16) ::
      b64t (b % 16 * 4 + c / 64) :: b64t (c % 64) :: base64 rest

/-- Validation vector: `base64.b64encode(b"user:pass") = b"dXNlcjpwYXNz"`. -/
theorem base64_vector : String.mk (base64 (utf8 "user:pass")) = "dXNlcjpwYXNz" := by
  decide

/-! ## Data model of the client

`client.py` keeps all state on the `Trustpay` object; the only mutable
attribute is `access_token`, assigned once by `__init__`.  JSON responses
(`json.loads(r.text)`) are modelled by the inductive `JVal`; `json.dumps` and
`urlencode` are modelled at the value level: a `Request` records the value
handed to the transform function rather than its serialised text. -/

/-- A JSON value (no array case: the client never consumes or produces one). -/
inductive JVal where
  | jnull : JVal
  | jbool : Bool → JVal
  | jint : Int → JVal
  | jnum : Rat → JVal
  | jstr : String → JVal
  | jobj : List (String × JVal) → JVal

def lookupField : List (String × JVal) → String → Option JVal
  | [], _ => none
  | (k, v) :: rest, key => if k = key then some v else lookupField rest key

/-- Python's `d[key]` on a decoded JSON object (`none` models the `KeyError`). -/
def jlookup : JVal → String → Option JVal
  | .jobj fields, key => lookupField fields key
  | _, _ => none

/-- Python's `str()` of a scalar JSON value, as used in f-strings and
`str.format`.  The `jobj`/`jnum` renderings are never reached by any claim:
the values interpolated by the client are ints and strings. -/
def pyScalarStr : JVal → String
  | .jnull => "None"
  | .jbool true => "True"
  | .jbool false => "False"
  | .jint n => toString n
  | .jnum q => toString q
  | .jstr s => s
  | .jobj _ => ""

/-- Python's f-string rendering of an optional string attribute
(`None` prints as `"None"`). -/
def pyOptStr : Option String → String
  | none => "None"
  | some s => s

/-- The secret key as supplied to the constructor: either a byte string
(usable by `hmac.new`) or a text `str` (which makes `hmac.new` raise
`TypeError`). -/
inductive SKey where
  | bytes : List Nat → SKey
  | str : String → SKey

/-- The `Trustpay` object's attributes.  The class-level `pid` annotation in
`client.py` is never assigned, so a constructed object has no `pid`
attribute; accordingly the model carries none. -/
structure Client where
  secret_key : Option SKey
  aid : Option String
  password : String
  username : String
  api_url : String
  access_token : Option String
  debug : Bool

/-- Exceptions raised by the client: `attributeError` is the builtin
`AttributeError` raised at the currency gate (the spec's
`UnsupportedCurrencyError`), `paymentException` is `trustpay.PaymentException`
(the spec's `PaymentError`), `keyError` is the builtin `KeyError` from a
missing JSON field. -/
inductive Err where
  | attributeError : String → Err
  | paymentException : String → Err
  | keyError : String → Err

/-- A value of a form field as handed to `requests.post(data=...)`. -/
inductive FormVal where
  | s : String → FormVal
  | i : Int → FormVal
  | null : FormVal

/-- The post body, recorded as the value handed to the transform function
(`urlencode`, `json.dumps`, or the raw dict for the refund call). -/
inductive PostBody where
  | urlenc : List (String × String) → PostBody
  | json : JVal → PostBody
  | form : List (String × FormVal) → PostBody

structure Request where
  url : String
  headers : List (String × String)
  body : PostBody

structure Response where
  status : Nat
  text : String
  json : JVal

/-- The HTTP transport: what the network answers to each request.
`json` models `json.loads(text)` of a 200 response. -/
def Oracle := Request → Response

/-- An operation's outcome: raised exception or value, with the list of HTTP
requests issued, in order. -/
def Res (α : Type) := Except Err α × List Request

/-- Sequencing: run `x`; on success feed its value to `f`; concatenate the
request traces. -/
def mbind {α β : Type} (x : Res α) (f : α → Res β) : Res β :=
  match x with
  | (.error e, t) => (.error e, t)
  | (.ok a, t) => ((f a).1, t ++ (f a).2)

def DEFAULT_BASE_API_URL : String := "https://api.trustpay.eu"

def SUPPORTED_CURRENCIES : List String := ["EUR"]

/-- Models `self.api_url = api_url or DEFAULT_BASE_API_URL` (`or` is on truthiness:
`None` and `""` both fall back to the default). -/
def resolveUrl : Option String → String
  | some u => if u = "" then DEFAULT_BASE_API_URL else u
  | none => DEFAULT_BASE_API_URL

/-- Method `_generate_url`: endpoint appended to the base url. -/
def generateUrl (c : Client) (endpoint : String) : String := c.api_url ++ endpoint

/-- Method `sign(message)`: HMAC-SHA256 of the message under the secret key,
hex-rendered and upper-cased; `hmac.new` raises `TypeError` when the key is
`None` or a text `str`, which `sign` catches, returning `None`. -/
def sign (c : Client) (message : List Nat) : Option String :=
  match c.secret_key with
  | some (.bytes k) => some (pyUpper (hexdigest (hmacSha256 k message)))
  | _ => none

/-- Method `create_merchant_signature(aid, amount, currency, reference)`: signs the
concatenation of the four fields' UTF-8 bytes, in that order, no delimiter.
(The Python code passes each argument through `str(...)`; arguments are
modelled as the resulting strings.) -/
def create_merchant_signature (c : Client) (aid amount currency reference : String) :
    Option String :=
  sign c (utf8 aid ++ utf8 amount ++ utf8 currency ++ utf8 reference)

/-- Method `check_trustpay_signature`: plain equality. -/
def check_trustpay_signature (signature trustpay_signature : String) : Bool :=
  trustpay_signature == signature

/-- Method `_prepare_headers(with_access_token=False)`: Basic auth from
`base64(username:password)`, form-urlencoded content type. -/
def prepare_headers_basic (c : Client) : List (String × String) :=
  [("Authorization", "Basic " ++ String.mk (base64 (utf8 (c.username ++ ":" ++ c.password)))),
   ("Content-Type", "application/x-www-form-urlencoded")]

/-- Method `_send_request`: POST, then raise `PaymentException` on any non-200
status, else return the decoded JSON body. -/
def send_request (o : Oracle) (url : String) (body : PostBody)
    (headers : List (String × String)) : Res JVal :=
  let req : Request := ⟨url, headers, body⟩
  let r := o req
  if r.status = 200 then (.ok r.json, [req])
  else (.error (.paymentException ("Trustpay error: " ++ r.text ++ ". Error code: " ++
                toString r.status)), [req])

/-- The token fetch inside `get_access_token` (the branch taken when no
truthy cached token exists): POST `grant_type=client_credentials` with Basic
auth, then extract `access_token` from the JSON (a missing field is a
`KeyError`).  Note the fetched token is returned but NOT stored on the
client. -/
def fetchToken (c : Client) (o : Oracle) : Res String :=
  mbind (send_request o (generateUrl c "/api/oauth2/token")
          (.urlenc [("grant_type", "client_credentials")])
          (prepare_headers_basic c)) fun j =>
    match jlookup j "access_token" with
    | some v => (.ok (pyScalarStr v), [])
    | none => (.error (.keyError "access_token"), [])

/-- Method `get_access_token`: `if self.access_token: return self.access_token`
(Python truthiness: `None` and `""` both refetch), else fetch. -/
def get_access_token (c : Client) (o : Oracle) : Res String :=
  match c.access_token with
  | some t => if t = "" then fetchToken c o else (.ok t, [])
  | none => fetchToken c o

/-- Method `_prepare_headers()` in its bearer variant: obtains the access token (possibly
issuing a token request) and builds the bearer headers. -/
def prepare_headers_bearer (c : Client) (o : Oracle) : Res (List (String × String)) :=
  mbind (get_access_token c o) fun tok =>
    (.ok [("Authorization", "bearer " ++ tok), ("Content-Type", "text/json")], [])

/-- Constructor `Trustpay.__init__`: stores the credentials, resolves the base url, and
eagerly fetches the access token (the `debug` flag is assigned only after
that call). -/
def mkTrustpay (password username : String) (secret_key : Option SKey)
    (aid : Option String) (api_url : Option String) (debug : Bool) (o : Oracle) :
    Res Client :=
  let c0 : Client :=
    { secret_key := secret_key, aid := aid, password := password,
      username := username, api_url := resolveUrl api_url,
      access_token := none, debug := false }
  match get_access_token c0 o with
  | (.ok t, reqs) => (.ok { c0 with access_token := some t, debug := debug }, reqs)
  | (.error e, reqs) => (.error e, reqs)


/-! ## Account details and the order XML builder -/

def jOfOpt : Option String → JVal
  | none => .jnull
  | some s => .jstr s

/-- Method `account_details()`: bearer-authenticated POST of `{AccountId: aid}` to
`/ApiBanking/GetAccountDetails`, extracting the `AccountDetails` field. -/
def account_details (c : Client) (o : Oracle) : Res JVal :=
  mbind (prepare_headers_bearer c o) fun hs =>
    mbind (send_request o (generateUrl c "/ApiBanking/GetAccountDetails")
            (.json (.jobj [("AccountId", jOfOpt c.aid)])) hs) fun j =>
      match jlookup j "AccountDetails" with
      | some v => (.ok v, [])
      | none => (.error (.keyError "AccountDetails"), [])

/-- The `order_xml_string` template from `trustpay/__init__.py`, verbatim
(including the leading and trailing newline of the triple-quoted literal). -/
def order_xml_string : String :=
  "\n<?xml version=\"1.0\" encoding=\"UTF-8\"?>\n<Document xmlns:xsd=\"http://www.w3.org/2001/XMLSchema\"\n          xmlns:xsi=\"http://www.w3.org/2001/XMLSchema-instance\"\n          xmlns=\"urn:iso:std:iso:20022:tech:xsd:pain.001.001.03\">\n    <CstmrCdtTrfInitn>\n        <GrpHdr>\n            <MsgId>\x7bMessageId\x7d</MsgId>\n            <CreDtTm>\x7bCreationDateTime\x7d</CreDtTm>\n            <NbOfTxs>1</NbOfTxs>\n            <InitgPty/>\n        </GrpHdr>\n        <PmtInf>\n            <PmtInfId>1</PmtInfId>\n            <PmtMtd>TRF</PmtMtd>\n            <PmtTpInf>\n                <LclInstrm>\n                    <Prtry>BWT2/EU</Prtry>\n                </LclInstrm>\n            </PmtTpInf>\n            <ReqdExctnDt>\x7bRequestedExecutionDate\x7d</ReqdExctnDt>\n            <Dbtr>\n                <Nm>\x7bDebtorName\x7d</Nm>\n            </Dbtr>\n            <DbtrAcct>\n                <Id>\n                    <Othr>\n                        <Id>\x7bDebtorAccount\x7d</Id>\n                    </Othr>\n                </Id>\n            </DbtrAcct>\n            <DbtrAgt>\n                <FinInstnId>\n                    <BIC>TPAYSKBX</BIC>\n                </FinInstnId>\n            </DbtrAgt>\n            <CdtTrfTxInf>\n                <PmtId>\n                    <EndToEndId>NOTPROVIDED</EndToEndId>\n                </PmtId>\n                <PmtTpInf>\n                    <LclInstrm>\n                        <Cd>010000</Cd>\n                    </LclInstrm>\n                </PmtTpInf>\n                <Amt>\n                    <InstdAmt Ccy=\"\x7bCurrency\x7d\">\x7bAmount\x7d</InstdAmt>\n                </Amt>\n                <CdtrAgt>\n                    <FinInstnId>\n                        <BIC>\x7bCreditorBankBic\x7d</BIC>\n                    </FinInstnId>\n                </CdtrAgt>\n                <Cdtr>\n                    <Nm>\x7bCreditorName\x7d</Nm>\n                </Cdtr>\n                <CdtrAcct>\n                    <Id>\n                        <IBAN>\x7bCreditorAccount\x7d</IBAN>\n                    </Id>\n                </CdtrAcct>\n                <RmtInf>\n                    <Ustrd>\x7bDescription\x7d</Ustrd>\n                </RmtInf>\n            </CdtTrfTxInf>\n        </PmtInf>\n    </CstmrCdtTrfInitn>\n</Document>\n"

def xchunk0 : List Char := String.data "\n<?xml version=\"1.0\" encoding=\"UTF-8\"?>\n<Document xmlns:xsd=\"http://www.w3.org/2001/XMLSchema\"\n          xmlns:xsi=\"http://www.w3.org/2001/XMLSchema-instance\"\n          xmlns=\"urn:iso:std:iso:20022:tech:xsd:pain.001.001.03\">\n    <CstmrCdtTrfInitn>\n        <GrpHdr>\n            <MsgId>"

def xchunk1 : List Char := String.data "</MsgId>\n            <CreDtTm>"

def xchunk2 : List Char := String.data "</CreDtTm>\n            <NbOfTxs>1</NbOfTxs>\n            <InitgPty/>\n        </GrpHdr>\n        <PmtInf>\n            <PmtInfId>1</PmtInfId>\n            <PmtMtd>TRF</PmtMtd>\n            <PmtTpInf>\n                <LclInstrm>\n                    <Prtry>BWT2/EU</Prtry>\n                </LclInstrm>\n            </PmtTpInf>\n            <ReqdExctnDt>"

def xchunk3 : List Char := String.data "</ReqdExctnDt>\n            <Dbtr>\n                <Nm>"

def xchunk4 : List Char := String.data "</Nm>\n            </Dbtr>\n            <DbtrAcct>\n                <Id>\n                    <Othr>\n                        <Id>"

def xchunk5 : List Char := String.data "</Id>\n                    </Othr>\n                </Id>\n            </DbtrAcct>\n            <DbtrAgt>\n                <FinInstnId>\n                    <BIC>TPAYSKBX</BIC>\n                </FinInstnId>\n            </DbtrAgt>\n            <CdtTrfTxInf>\n                <PmtId>\n                    <EndToEndId>NOTPROVIDED</EndToEndId>\n                </PmtId>\n                <PmtTpInf>\n                    <LclInstrm>\n                        <Cd>010000</Cd>\n                    </LclInstrm>\n                </PmtTpInf>\n                <Amt>\n                    <InstdAmt Ccy=\""

def xchunk6 : List Char := String.data "\">"

def xchunk7 : List Char := String.data "</InstdAmt>\n                </Amt>\n                <CdtrAgt>\n                    <FinInstnId>\n                        <BIC>"

def xchunk8 : List Char := String.data "</BIC>\n                    </FinInstnId>\n                </CdtrAgt>\n                <Cdtr>\n                    <Nm>"

def xchunk9 : List Char := String.data "</Nm>\n                </Cdtr>\n                <CdtrAcct>\n                    <Id>\n                        <IBAN>"

def xchunk10 : List Char := String.data "</IBAN>\n                    </Id>\n                </CdtrAcct>\n                <RmtInf>\n                    <Ustrd>"

def xchunk11 : List Char := String.data "</Ustrd>\n                </RmtInf>\n            </CdtTrfTxInf>\n        </PmtInf>\n    </CstmrCdtTrfInitn>\n</Document>\n"


/-- The per-call binding of the eleven template placeholders (the `config`
dict in `send_money`; a structure, so every field is bound). -/
structure OrderConfig where
  MessageId : String
  CreationDateTime : String
  RequestedExecutionDate : String
  DebtorName : String
  DebtorAccount : String
  Currency : String
  Amount : String
  CreditorBankBic : String
  CreditorName : String
  CreditorAccount : String
  Description : String

def cfgLookup (cfg : OrderConfig) (key : String) : Option String :=
  if key = "MessageId" then some cfg.MessageId
  else if key = "CreationDateTime" then some cfg.CreationDateTime
  else if key = "RequestedExecutionDate" then some cfg.RequestedExecutionDate
  else if key = "DebtorName" then some cfg.DebtorName
  else if key = "DebtorAccount" then some cfg.DebtorAccount
  else if key = "Currency" then some cfg.Currency
  else if key = "Amount" then some cfg.Amount
  else if key = "CreditorBankBic" then some cfg.CreditorBankBic
  else if key = "CreditorName" then some cfg.CreditorName
  else if key = "CreditorAccount" then some cfg.CreditorAccount
  else if key = "Description" then some cfg.Description
  else none

/-- The eleven substituted values, in template order. -/
def cfgValues (cfg : OrderConfig) : List String :=
  [cfg.MessageId, cfg.CreationDateTime, cfg.RequestedExecutionDate,
   cfg.DebtorName, cfg.DebtorAccount, cfg.Currency, cfg.Amount,
   cfg.CreditorBankBic, cfg.CreditorName, cfg.CreditorAccount, cfg.Description]

/-- The open and close braces delimiting a replacement field. -/
def lbrace : Char := Char.ofNat 123

def rbrace : Char := Char.ofNat 125

/-- Tail-recursive list length (an accumulator keeps every reduction step a
pure tail call, so the kernel evaluates it with constant stack). -/
def listLen (acc : Nat) : List Char → Nat
  | [] => acc
  | _ :: rest => listLen (acc + 1) rest

/-- Scan to the matching close brace of a replacement field, returning the
field name and the remainder. -/
def findClose : List Char → Option (List Char × List Char)
  | [] => none
  | ch :: rest =>
      match ch == rbrace with
      | true => some ([], rest)
      | false => (findClose rest).map (fun pr => (ch :: pr.1, pr.2))

/-- One left-to-right pass of Python's `str.format` restricted to named
fields (all this template uses): literal characters are copied, each
brace-delimited name is replaced by its binding, and inserted text is not
rescanned.  `none` models the exception on a missing key or a lone brace.
The output is accumulated in reverse (pure tail recursion, evaluable with
constant stack).  The first argument is fuel ensuring termination: every
step consumes at least one input character but exactly one fuel entry, so
passing the input itself as fuel always suffices (and the fuel-exhausted
`none` is then unreachable). -/
def pyFormatGo (lookup : String → Option String) :
    List Char → List Char → List Char → Option (List Char)
  | _, acc, [] => some acc.reverse
  | [], _, _ :: _ => none
  | _ :: fuel, acc, ch :: rest =>
      match ch == lbrace with
      | true =>
          match findClose rest with
          | none => none
          | some (name, rest2) =>
              match lookup (String.mk name) with
              | none => none
              | some v => pyFormatGo lookup fuel (List.reverseAux v.data acc) rest2
      | false => pyFormatGo lookup fuel (ch :: acc) rest

def pyFormat (lookup : String → Option String) (l : List Char) : Option (List Char) :=
  pyFormatGo lookup l [] l

/-- Python `.replace("\n", " ")` on a one-character pattern is a character map. -/
def nlRepl (ch : Char) : Char := if ch = Char.ofNat 10 then Char.ofNat 32 else ch

/-- Models `order_xml_string.format(**config).replace("\n", " ")`: the substituted
template with every newline replaced by a single space.  (The `getD []` is
unreachable: the fixed template formats successfully under any total
`OrderConfig`, which the decomposition lemma below proves.) -/
def order_data (cfg : OrderConfig) : String :=
  String.mk (((pyFormat (cfgLookup cfg) order_xml_string.data).getD []).map nlRepl)

/-- The environment values `send_money` draws from the system: `str(uuid.uuid4())`,
`datetime.today().isoformat()` and `date.today().isoformat()`. -/
structure SendEnv where
  uuid : String
  nowIso : String
  todayIso : String

/-- Models `str(uuid.uuid4()).replace("-", "")[:12]`. -/
def uuidCode (u : String) : String :=
  String.mk ((u.data.filter (fun ch => ch != Char.ofNat 45)).take 12)

/-- Models `datetime.today().isoformat().split(".")[0]`: the prefix before the
first dot (the whole string when there is none). -/
def isoNoFrac (s : String) : String :=
  String.mk (s.data.takeWhile (fun c => c != Char.ofNat 46))

/-- Models `str(["EUR"])`, the message of the `AttributeError` raised by the
currency gate. -/
def currency_error_message : String :=
  "Currency not supported. Please use any from this list: [\x27EUR\x27]"

/-- Method `send_money`: currency gate, fetch own account details, build the order
XML and POST it wrapped as `{Xml: ...}` to `/ApiBanking/CreateOrder`.  The
`amount` float is modelled by its `str()` rendering, which is all the
template substitution uses. -/
def send_money (c : Client) (o : Oracle) (env : SendEnv) (amount : String)
    (currency recipient account details bank_bik : String) : Res JVal :=
  if currency ∈ SUPPORTED_CURRENCIES then
    mbind (account_details c o) fun ad =>
      match jlookup ad "AccountId", jlookup ad "AccountName" with
      | some acctId, some acctName =>
        let cfg : OrderConfig :=
          { MessageId := pyScalarStr acctId ++ "-" ++ uuidCode env.uuid,
            CreationDateTime := isoNoFrac env.nowIso,
            RequestedExecutionDate := env.todayIso,
            DebtorName := pyScalarStr acctName,
            DebtorAccount := pyScalarStr acctId,
            Currency := currency,
            Amount := amount,
            CreditorBankBic := bank_bik,
            CreditorName := recipient,
            CreditorAccount := account,
            Description := details }
        mbind (prepare_headers_bearer c o) fun hs =>
          send_request o (generateUrl c "/ApiBanking/CreateOrder")
            (.json (.jobj [("Xml", .jstr (order_data cfg))])) hs
      | none, _ => (.error (.keyError "AccountId"), [])
      | _, none => (.error (.keyError "AccountName"), [])
  else (.error (.attributeError currency_error_message), [])

/-! ## Card payment creation -/

def pyLower (s : String) : String := String.mk (s.data.map Char.toLower)

def lookupStr : List (String × String) → String → Option String
  | [], _ => none
  | (k, v) :: rest, key => if k = key then some v else lookupStr rest key

/-- Python `kwargs.get(key, default)`. -/
def kwget (kwargs : List (String × String)) (key dflt : String) : String :=
  match lookupStr kwargs key with
  | some v => v
  | none => dflt

/-- Python dict item assignment `d[key] = v`: replace in place, or append a
new key (insertion order). -/
def setField : List (String × JVal) → String → JVal → List (String × JVal)
  | [], key, v => [(key, v)]
  | (k, w) :: rest, key, v =>
      if k = key then (k, v) :: rest else (k, w) :: setField rest key v

def jSet : JVal → String → JVal → JVal
  | .jobj fields, key, v => .jobj (setField fields key v)
  | j, _, _ => j

/-- Models `payload[k1][k2] = v` (the nested dict is always present here). -/
def jSetIn (j : JVal) (k1 k2 : String) (v : JVal) : JVal :=
  jSet j k1 (jSet ((jlookup j k1).getD .jnull) k2 v)

/-- The payload dict built by `create_payment`, including the two
method-conditional mutations.  The `amount` float is modelled as the exact
rational it denotes. -/
def create_payment_payload (c : Client) (code : String) (amount : Rat)
    (currency merchant_reference notification_url success_url error_url : String)
    (kwargs : List (String × String)) : JVal :=
  let base : JVal := .jobj
    [("PaymentMethod", .jstr code),
     ("MerchantIdentification", .jobj [("ProjectId", jOfOpt c.aid)]),
     ("PaymentInformation", .jobj
       [("Amount", .jobj [("Amount", .jnum amount), ("Currency", .jstr currency)]),
        ("IsRedirect", .jbool true),
        ("Localization", .jstr "EN"),
        ("References", .jobj [("MerchantReference", .jstr merchant_reference)])]),
     ("CallbackUrls", .jobj
       [("Notification", .jstr notification_url),
        ("Success", .jstr success_url),
        ("Error", .jstr error_url)])]
  let p1 :=
    if pyLower code = pyLower "trustly" then
      let q := jSetIn base "PaymentInformation" "Country" (.jstr (kwget kwargs "country" "US"))
      jSetIn q "PaymentInformation" "Debtor" (.jobj
        [("FirstName", .jstr (kwget kwargs "first_name" "")),
         ("LastName", .jstr (kwget kwargs "last_name" "")),
         ("Identification", .jobj [("Id", .jstr (kwget kwargs "email" ""))]),
         ("Email", .jstr (kwget kwargs "email" ""))])
    else base
  if pyLower code = pyLower "InstantBankTransferFI" then
    jSetIn p1 "PaymentInformation" "Debtor" (.jobj
      [("Email", .jstr (kwget kwargs "email" ""))])
  else p1

/-- Method `create_payment`: bearer headers, then POST the payload as JSON to
`/api/Payments/Payment`. -/
def create_payment (c : Client) (o : Oracle) (code : String) (amount : Rat)
    (currency merchant_reference notification_url success_url error_url : String)
    (kwargs : List (String × String)) : Res JVal :=
  mbind (prepare_headers_bearer c o) fun hs =>
    send_request o (generateUrl c "/api/Payments/Payment")
      (.json (create_payment_payload c code amount currency merchant_reference
               notification_url success_url error_url kwargs)) hs

/-! ## Refund -/

/-- The source constant `payment_type = 8  # Payment type for refunds`. -/
def payment_type : Nat := 8

def pad2 (n : Nat) : String := if n < 10 then "0" ++ toString n else toString n

/-- Python's `f"{amount:.2f}"`.  The float `amount` is modelled as its exact
value in cents (the API deals in two-decimal amounts, all of which round-trip
through this format exactly). -/
def format2f (cents : Int) : String :=
  (if cents < 0 then "-" else "") ++
    toString (cents.natAbs / 100) ++ "." ++ pad2 (cents.natAbs % 100)

def fvOfOptStr : Option String → FormVal
  | none => .null
  | some s => .s s

/-- The f-string
`f"{self.aid}/{amount:.2f}/{currency}/{reference}/{payment_type}/{payment_request_id}"`
signed by `refund_payment`. -/
def refund_signature_data (c : Client) (cents : Int) (currency reference : String)
    (payment_request_id : Int) : String :=
  pyOptStr c.aid ++ "/" ++ format2f cents ++ "/" ++ currency ++ "/" ++ reference ++
    "/" ++ toString payment_type ++ "/" ++ toString payment_request_id

/-- Method `refund_payment`: currency gate, sign the refund string, then POST the
form directly (no Authorization header, own non-200 message). -/
def refund_payment (c : Client) (o : Oracle) (cents : Int)
    (currency reference : String) (payment_request_id : Int)
    (notification_url : Option String) : Res JVal :=
  if currency ∈ SUPPORTED_CURRENCIES then
    let signature :=
      sign c (utf8 (refund_signature_data c cents currency reference payment_request_id))
    let data0 : List (String × FormVal) :=
      [("AccountId", fvOfOptStr c.aid),
       ("Amount", .s (format2f cents)),
       ("Currency", .s currency),
       ("Reference", .s reference),
       ("PaymentType", .i (payment_type : Int)),
       ("PaymentRequestId", .i payment_request_id),
       ("Signature", fvOfOptStr signature)]
    let data :=
      match notification_url with
      | some u => if u = "" then data0 else data0 ++ [("NotificationUrl", FormVal.s u)]
      | none => data0
    let req : Request := ⟨generateUrl c "/mapi5/Wire/PayPopup",
      [("Content-Type", "application/x-www-form-urlencoded")], .form data⟩
    let r := o req
    if r.status = 200 then (.ok r.json, [req])
    else (.error (.paymentException ("Trustpay refund error: " ++ r.text ++
                  ". Error code: " ++ toString r.status)), [req])
  else (.error (.attributeError currency_error_message), [])

/-! ## Substring occurrence counting (pure tail recursion throughout, so all
of it evaluates with constant stack on the 2000-character documents) -/

/-- Does `pat` occur at the head of the second list? -/
def startsWith : List Char → List Char → Bool
  | [], _ => true
  | _ :: _, [] => false
  | p :: ps, c :: cs =>
      match p == c with
      | true => startsWith ps cs
      | false => false

def countOccsGo (pat : List Char) : Nat → List Char → Nat
  | acc, [] =>
      match startsWith pat [] with
      | true => acc + 1
      | false => acc
  | acc, c :: rest =>
      match startsWith pat (c :: rest) with
      | true => countOccsGo pat (acc + 1) rest
      | false => countOccsGo pat acc rest

/-- Number of (possibly overlapping) positions at which `pat` occurs in `l`. -/
def countOccs (pat l : List Char) : Nat := countOccsGo pat 0 l

/-- Tail-recursive character-list equality (the Bool scrutinee keeps every
step a pure tail call). -/
def eqChars : List Char → List Char → Bool
  | [], [] => true
  | [], _ :: _ => false
  | _ :: _, [] => false
  | a :: as, b :: bs =>
      match a == b with
      | true => eqChars as bs
      | false => false

/-! ## A piece decomposition of the format template, for reasoning about
`pyFormat` on the fixed 2150-character template without deep kernel
recursion. -/

/-- A format template piece: literal text or a named replacement field. -/
inductive Piece where
  | lit : List Char → Piece
  | ph : String → Piece

/-- The character stream a piece list denotes. -/
def piecesChars : List Piece → List Char
  | [] => []
  | .lit l :: ps => l ++ piecesChars ps
  | .ph n :: ps => lbrace :: (n.data ++ rbrace :: piecesChars ps)

/-- Substitution of a piece list under a binding (the specification of one
`str.format` pass). -/
def renderPieces (f : String → Option String) : List Piece → Option (List Char)
  | [] => some []
  | .lit l :: ps => (renderPieces f ps).map (fun out => l ++ out)
  | .ph n :: ps =>
      match f n with
      | some v => (renderPieces f ps).map (fun out => v.data ++ out)
      | none => none

/-- Fuel consumed by `pyFormatGo` on a piece list: one unit per literal
character, one per replacement field. -/
def pieceFuel : List Piece → Nat
  | [] => 0
  | .lit l :: ps => l.length + pieceFuel ps
  | .ph _ :: ps => 1 + pieceFuel ps

/-- Well-formedness: literal pieces are brace-free and field names contain
no close brace. -/
def piecesWF : List Piece → Prop
  | [] => True
  | .lit l :: ps => (∀ c ∈ l, (c == lbrace) = false) ∧ piecesWF ps
  | .ph n :: ps => (∀ c ∈ n.data, (c == rbrace) = false) ∧ piecesWF ps

/-- The eleven-placeholder decomposition of `order_xml_string`. -/
def orderPieces : List Piece :=
  [.lit xchunk0, .ph "MessageId", .lit xchunk1, .ph "CreationDateTime",
   .lit xchunk2, .ph "RequestedExecutionDate", .lit xchunk3, .ph "DebtorName",
   .lit xchunk4, .ph "DebtorAccount", .lit xchunk5, .ph "Currency",
   .lit xchunk6, .ph "Amount", .lit xchunk7, .ph "CreditorBankBic",
   .lit xchunk8, .ph "CreditorName", .lit xchunk9, .ph "CreditorAccount",
   .lit xchunk10, .ph "Description", .lit xchunk11]


/-! ## Lemmas about the tail-recursive helpers -/

lemma listLen_eq (l : List Char) : ∀ a : Nat, listLen a l = a + l.length := by
  induction l with
  | nil => intro a; simp [listLen]
  | cons c rest ih => intro a; simp [listLen, ih]; omega

lemma eqChars_eq : ∀ l1 l2 : List Char, eqChars l1 l2 = true → l1 = l2 := by
  intro l1
  induction l1 with
  | nil =>
      intro l2 h
      cases l2 with
      | nil => rfl
      | cons b bs => simp [eqChars] at h
  | cons a as ih =>
      intro l2 h
      cases l2 with
      | nil => simp [eqChars] at h
      | cons b bs =>
          rcases hb : a == b with _ | _
          · rw [eqChars, hb] at h; exact absurd h (by simp)
          · rw [eqChars, hb] at h
            rw [eq_of_beq hb, ih bs h]

lemma reverseAux_append (xs : List Char) : ∀ ys acc : List Char,
    List.reverseAux (xs ++ ys) acc = List.reverseAux ys (List.reverseAux xs acc) := by
  induction xs with
  | nil => intro ys acc; rfl
  | cons x xs ih => intro ys acc; simp only [List.cons_append, List.reverseAux]; exact ih ys (x :: acc)

lemma countOccsGo_acc (pat : List Char) : ∀ l (acc : Nat),
    countOccsGo pat acc l = acc + countOccsGo pat 0 l := by
  intro l
  induction l with
  | nil =>
      intro acc
      rcases hs : startsWith pat [] with _ | _ <;> simp [countOccsGo, hs]
  | cons c rest ih =>
      intro acc
      rcases hs : startsWith pat (c :: rest) with _ | _
      · simp only [countOccsGo, hs]; rw [ih acc, ih 0]
      · simp only [countOccsGo, hs]; rw [ih (acc + 1), ih 1]; omega

lemma one_le_countOccs_append (pat : List Char) (A : List Char) {l : List Char}
    (h : 1 ≤ countOccs pat l) : 1 ≤ countOccs pat (A ++ l) := by
  induction A with
  | nil => simpa using h
  | cons a A ih =>
      show 1 ≤ countOccs pat (a :: (A ++ l))
      unfold countOccs
      rcases hs : startsWith pat (a :: (A ++ l)) with _ | _
      · simp only [countOccsGo, hs]; exact ih
      · simp only [countOccsGo, hs]; rw [countOccsGo_acc]; omega

lemma startsWith_self : ∀ v rest : List Char, startsWith v (v ++ rest) = true := by
  intro v
  induction v with
  | nil => intro rest; rfl
  | cons c cs ih =>
      intro rest
      show startsWith (c :: cs) (c :: (cs ++ rest)) = true
      rw [startsWith]
      have : (c == c) = true := by simp
      rw [this]
      exact ih rest

lemma one_le_countOccs_nil_pat : ∀ l : List Char, 1 ≤ countOccs [] l := by
  intro l
  induction l with
  | nil => simp [countOccs, countOccsGo, startsWith]
  | cons c rest ih =>
      unfold countOccs
      simp only [countOccsGo, startsWith]
      rw [countOccsGo_acc]
      omega

lemma one_le_countOccs_head (v rest : List Char) : 1 ≤ countOccs v (v ++ rest) := by
  cases v with
  | nil => simpa using one_le_countOccs_nil_pat rest
  | cons c cs =>
      show 1 ≤ countOccs (c :: cs) (c :: (cs ++ rest))
      unfold countOccs
      have hs : startsWith (c :: cs) (c :: (cs ++ rest)) = true := startsWith_self (c :: cs) rest
      simp only [countOccsGo, hs]
      rw [countOccsGo_acc]
      omega

lemma mapNL_id : ∀ v : List Char, (∀ ch ∈ v, ch ≠ Char.ofNat 10) → v.map nlRepl = v := by
  intro v hv
  induction v with
  | nil => rfl
  | cons c rest ih =>
      simp only [List.map_cons]
      rw [show nlRepl c = c from if_neg (hv c (by simp)), ih (fun ch hc => hv ch (by simp [hc]))]

/-! ## `pyFormat` computes piece substitution -/

def pieceWFb : Piece → Bool
  | .lit l => l.all (fun c => !(c == lbrace))
  | .ph n => n.data.all (fun c => !(c == rbrace))

def piecesWFb (ps : List Piece) : Bool := ps.all pieceWFb

lemma pyFormatGo_lit (f : String → Option String) :
    ∀ lit : List Char, lit.all (fun c => !(c == lbrace)) = true →
    ∀ fuel acc rest : List Char, lit.length ≤ fuel.length →
    pyFormatGo f fuel acc (lit ++ rest) =
      pyFormatGo f (fuel.drop lit.length) (List.reverseAux lit acc) rest := by
  intro lit
  induction lit with
  | nil => intro h fuel acc rest hl; simp [List.reverseAux]
  | cons c lit ih =>
      intro h fuel acc rest hl
      simp only [List.all_cons, Bool.and_eq_true, Bool.not_eq_true'] at h
      cases fuel with
      | nil => simp at hl
      | cons fc fuel =>
          show pyFormatGo f (fc :: fuel) acc (c :: (lit ++ rest)) = _
          rw [pyFormatGo, h.1]
          have := ih (by simpa using h.2) fuel (c :: acc) rest (by simpa using hl)
          rw [this]
          rfl

lemma findClose_name : ∀ name : List Char, name.all (fun c => !(c == rbrace)) = true →
    ∀ rest : List Char, findClose (name ++ rbrace :: rest) = some (name, rest) := by
  intro name
  induction name with
  | nil => intro h rest; rfl
  | cons c name ih =>
      intro h rest
      simp only [List.all_cons, Bool.and_eq_true, Bool.not_eq_true'] at h
      show findClose (c :: (name ++ rbrace :: rest)) = _
      rw [findClose, h.1, ih h.2 rest]
      rfl

lemma pyFormatGo_nil (f : String → Option String) (fuel acc : List Char) :
    pyFormatGo f fuel acc [] = some acc.reverse := by
  cases fuel <;> rfl

lemma pyFormatGo_ph (f : String → Option String) (name v : String)
    (hf : f name = some v) (hn : name.data.all (fun c => !(c == rbrace)) = true)
    (fuel acc rest : List Char) (hl : 1 ≤ fuel.length) :
    pyFormatGo f fuel acc (lbrace :: (name.data ++ rbrace :: rest)) =
      pyFormatGo f (fuel.drop 1) (List.reverseAux v.data acc) rest := by
  cases fuel with
  | nil => simp at hl
  | cons fc fuel =>
      have h2 : (String.mk name.data) = name := rfl
      rw [pyFormatGo]
      simp only [show (lbrace == lbrace) = true from by simp,
        findClose_name name.data hn rest, h2, hf]
      rfl

lemma pyFormatGo_pieces (f : String → Option String) :
    ∀ ps : List Piece, piecesWFb ps = true →
    ∀ out : List Char, renderPieces f ps = some out →
    ∀ fuel acc : List Char, pieceFuel ps ≤ fuel.length →
    pyFormatGo f fuel acc (piecesChars ps ++ []) =
      some (List.reverseAux out acc).reverse := by
  intro ps
  induction ps with
  | nil =>
      intro _ out hout fuel acc _
      simp only [renderPieces, Option.some.injEq] at hout
      subst hout
      exact pyFormatGo_nil f fuel acc
  | cons p ps ih =>
      intro hwf out hout fuel acc hl
      simp only [piecesWFb, List.all_cons, Bool.and_eq_true] at hwf
      cases p with
      | lit l =>
          simp only [renderPieces] at hout
          rcases hout2 : renderPieces f ps with _ | out2
          · rw [hout2] at hout; simp at hout
          · rw [hout2] at hout
            simp only [Option.map_some', Option.some.injEq] at hout
            subst hout
            simp only [piecesChars, List.append_assoc]
            rw [pyFormatGo_lit f l hwf.1 fuel acc _ (by
              simp only [pieceFuel] at hl; omega)]
            rw [ih (by simpa [piecesWFb] using hwf.2) out2 hout2 _ (List.reverseAux l acc) (by
              simp only [pieceFuel] at hl
              simp only [List.length_drop]
              omega)]
            rw [reverseAux_append]
      | ph n =>
          simp only [renderPieces] at hout
          rcases hfn : f n with _ | v
          · rw [hfn] at hout; simp at hout
          · rw [hfn] at hout
            rcases hout2 : renderPieces f ps with _ | out2
            · rw [hout2] at hout; simp at hout
            · rw [hout2] at hout
              simp only [Option.map_some', Option.some.injEq] at hout
              subst hout
              simp only [piecesChars, List.cons_append, List.append_assoc]
              rw [pyFormatGo_ph f n v hfn hwf.1 fuel acc _ (by
                simp only [pieceFuel] at hl; omega)]
              rw [ih (by simpa [piecesWFb] using hwf.2) out2 hout2 _ (List.reverseAux v.data acc) (by
                simp only [pieceFuel] at hl
                simp only [List.length_drop]
                omega)]
              rw [reverseAux_append]

/-- The substituted template: the twelve literal chunks interleaved with the
eleven bound values, in template order. -/
def orderSubst (cfg : OrderConfig) : List Char :=
  xchunk0 ++ (cfg.MessageId.data ++ (xchunk1 ++ (cfg.CreationDateTime.data ++
  (xchunk2 ++ (cfg.RequestedExecutionDate.data ++ (xchunk3 ++ (cfg.DebtorName.data ++
  (xchunk4 ++ (cfg.DebtorAccount.data ++ (xchunk5 ++ (cfg.Currency.data ++
  (xchunk6 ++ (cfg.Amount.data ++ (xchunk7 ++ (cfg.CreditorBankBic.data ++
  (xchunk8 ++ (cfg.CreditorName.data ++ (xchunk9 ++ (cfg.CreditorAccount.data ++
  (xchunk10 ++ (cfg.Description.data ++ xchunk11)))))))))))))))))))))

lemma renderPieces_order (cfg : OrderConfig) :
    renderPieces (cfgLookup cfg) orderPieces = some (orderSubst cfg) := rfl

lemma order_tpl_pieces : order_xml_string.data = piecesChars orderPieces :=
  eqChars_eq _ _ rfl

lemma order_tpl_len : (order_xml_string.data).length = 2150 := by
  have h1 : listLen 0 order_xml_string.data = 2150 := rfl
  have h2 := listLen_eq order_xml_string.data 0
  omega

lemma pyFormat_order (cfg : OrderConfig) :
    pyFormat (cfgLookup cfg) order_xml_string.data = some (orderSubst cfg) := by
  have h := pyFormatGo_pieces (cfgLookup cfg) orderPieces (by decide)
    (orderSubst cfg) (renderPieces_order cfg) order_xml_string.data []
    (by rw [order_tpl_len]; decide)
  rw [List.append_nil] at h
  show pyFormatGo (cfgLookup cfg) order_xml_string.data [] order_xml_string.data =
    some (orderSubst cfg)
  calc pyFormatGo (cfgLookup cfg) order_xml_string.data [] order_xml_string.data
      = pyFormatGo (cfgLookup cfg) order_xml_string.data [] (piecesChars orderPieces) := by
        rw [← order_tpl_pieces]
    _ = some (List.reverseAux (orderSubst cfg) []).reverse := h
    _ = some (orderSubst cfg) := by
        rw [show List.reverseAux (orderSubst cfg) [] = (orderSubst cfg).reverse from rfl,
          List.reverse_reverse]

lemma order_data_decomp (cfg : OrderConfig) :
    (order_data cfg).data = (orderSubst cfg).map nlRepl := by
  unfold order_data
  rw [pyFormat_order]
  rfl


/-! ## Support lemmas for the signature claims -/

lemma sha256_length (msg : List Nat) : (sha256 msg).length = 32 := by
  simp [sha256, digestBytes, wordBytes]

lemma wordBytes_lt (n : Nat) : ∀ x ∈ wordBytes n, x < 256 := by
  intro x hx
  simp only [wordBytes, List.mem_cons, List.not_mem_nil, or_false] at hx
  rcases hx with rfl | rfl | rfl | rfl <;> exact Nat.mod_lt _ (by norm_num)

lemma sha256_lt (msg : List Nat) : ∀ x ∈ sha256 msg, x < 256 := by
  intro x hx
  simp only [sha256, digestBytes, List.mem_append] at hx
  rcases hx with ((((((h | h) | h) | h) | h) | h) | h) | h <;> exact wordBytes_lt _ _ h

lemma hmacSha256_length (key msg : List Nat) : (hmacSha256 key msg).length = 32 :=
  sha256_length _

lemma hmacSha256_lt (key msg : List Nat) : ∀ x ∈ hmacSha256 key msg, x < 256 :=
  sha256_lt _

lemma hexChars_length : ∀ bs : List Nat, (hexChars bs).length = 2 * bs.length := by
  intro bs
  induction bs with
  | nil => rfl
  | cons b rest ih => simp [hexChars, ih]; omega

/-- The sixteen uppercase hexadecimal digits. -/
def upperHexChars : List Char := String.data "0123456789ABCDEF"

lemma hexDigit_upper_mem : ∀ n : Nat, n < 16 → Char.toUpper (hexDigitChar n) ∈ upperHexChars := by
  decide

lemma hexChars_upper_mem : ∀ bs : List Nat, (∀ b ∈ bs, b < 256) →
    ∀ ch ∈ (hexChars bs).map Char.toUpper, ch ∈ upperHexChars := by
  intro bs
  induction bs with
  | nil => intro _ ch hc; simp [hexChars] at hc
  | cons b rest ih =>
      intro hb ch hc
      simp only [hexChars, List.map_cons, List.mem_cons] at hc
      have hblt : b < 256 := hb b (by simp)
      rcases hc with rfl | rfl | hc
      · exact hexDigit_upper_mem _ (by omega)
      · exact hexDigit_upper_mem _ (Nat.mod_lt _ (by norm_num))
      · exact ih (fun x hx => hb x (by simp [hx])) ch hc

lemma string_mk_length (l : List Char) : (String.mk l).length = l.length := rfl

lemma sign_bytes_shape (c : Client) (k msg : List Nat)
    (h : c.secret_key = some (.bytes k)) :
    sign c msg = some (pyUpper (hexdigest (hmacSha256 k msg))) := by
  simp [sign, h]

lemma sign_hex_length (k msg : List Nat) :
    (pyUpper (hexdigest (hmacSha256 k msg))).length = 64 := by
  show (String.mk ((hexChars (hmacSha256 k msg)).map Char.toUpper)).length = 64
  rw [string_mk_length, List.length_map, hexChars_length, hmacSha256_length]

lemma sign_hex_upper (k msg : List Nat) :
    ∀ ch ∈ (pyUpper (hexdigest (hmacSha256 k msg))).data, ch ∈ upperHexChars := by
  intro ch hc
  exact hexChars_upper_mem _ (hmacSha256_lt k msg) ch hc

lemma utf8Aux_append : ∀ xs ys : List Char, utf8Aux (xs ++ ys) = utf8Aux xs ++ utf8Aux ys := by
  intro xs ys
  induction xs with
  | nil => rfl
  | cons c rest ih => simp [utf8Aux, ih]

lemma string_data_append (a b : String) : (a ++ b).data = a.data ++ b.data := by
  cases a; cases b; rfl

lemma utf8_append (a b : String) : utf8 (a ++ b) = utf8 a ++ utf8 b := by
  show utf8Aux (a ++ b).data = _
  rw [string_data_append, utf8Aux_append]
  rfl

/-! ## Claim theorems -/

/-- Test client whose secret key is the byte string `b"testkey"`. -/
def cBytesTest : Client :=
  { secret_key := some (.bytes (utf8 "testkey")), aid := some "1000",
    password := "p", username := "u", api_url := DEFAULT_BASE_API_URL,
    access_token := some "tok", debug := false }

/-- Test client whose secret key is a text `str` (unusable by `hmac.new`). -/
def cStrTest : Client :=
  { secret_key := some (.str "testkey"), aid := some "A1",
    password := "p", username := "u", api_url := DEFAULT_BASE_API_URL,
    access_token := some "tok", debug := false }

/-- C1: `create_merchant_signature(aid, amount, currency, reference)` signs,
with HMAC-SHA256 under the secret key rendered as 64 uppercase hex
characters, exactly the delimiter-free UTF-8 concatenation of the four field
values in the order AID, AMT, CUR, REF; in particular the example fields
"1000", "9.99", "EUR", "ref123" produce exactly the bytes of
"10009.99EURref123" as the HMAC message. -/
theorem claim_C1_merchant_signature (c : Client) (key : List Nat)
    (aid amt cur ref : String) (h : c.secret_key = some (.bytes key)) :
    (∃ hex, create_merchant_signature c aid amt cur ref = some hex ∧
       hex = pyUpper (hexdigest (hmacSha256 key
         (utf8 aid ++ utf8 amt ++ utf8 cur ++ utf8 ref))) ∧
       hex.length = 64 ∧ ∀ ch ∈ hex.data, ch ∈ upperHexChars) ∧
    utf8 aid ++ utf8 amt ++ utf8 cur ++ utf8 ref = utf8 (aid ++ amt ++ cur ++ ref) ∧
    utf8 "1000" ++ utf8 "9.99" ++ utf8 "EUR" ++ utf8 "ref123" = utf8 "10009.99EURref123" := by
  refine ⟨⟨pyUpper (hexdigest (hmacSha256 key (utf8 aid ++ utf8 amt ++ utf8 cur ++ utf8 ref))),
    sign_bytes_shape c key _ h, rfl, sign_hex_length _ _, sign_hex_upper _ _⟩, ?_, ?_⟩
  · rw [utf8_append, utf8_append, utf8_append]
  · decide

/-- C1 witness at the spec's example vector. -/
theorem claim_C1_witness :
    (create_merchant_signature cBytesTest "1000" "9.99" "EUR" "ref123").isSome = true := by
  obtain ⟨⟨hex, h1, -, -, -⟩, -, -⟩ :=
    claim_C1_merchant_signature cBytesTest (utf8 "testkey") "1000" "9.99" "EUR" "ref123" rfl
  rw [h1]
  rfl

/-- Validation: the full merchant-signature pipeline on the spec's example
vector produces the reference HMAC-SHA256 value of `"10009.99EURref123"`
under key `b"testkey"` (cross-checked against Python's
`hmac.new(b"testkey", b"10009.99EURref123", hashlib.sha256)`). -/
theorem merchant_signature_testkey_vector :
    create_merchant_signature cBytesTest "1000" "9.99" "EUR" "ref123" =
      some "C03CB4DF4E6FD8CBCBFA0103E07E71E4EABD8FA75DB88E0B5C34DC309B27672C" := by
  decide

/-- C8: a missing or text-typed secret key makes `sign` return the `None`
sentinel instead of raising; a byte-string key yields a 64-character
uppercase-hex digest. -/
theorem claim_C8_sign_sentinel (c : Client) (msg : List Nat) :
    (c.secret_key = none → sign c msg = none) ∧
    (∀ s, c.secret_key = some (.str s) → sign c msg = none) ∧
    (∀ k, c.secret_key = some (.bytes k) →
      ∃ hex, sign c msg = some hex ∧ hex.length = 64 ∧
        ∀ ch ∈ hex.data, ch ∈ upperHexChars) := by
  refine ⟨fun h => by simp [sign, h], fun s h => by simp [sign, h], fun k h => ?_⟩
  exact ⟨_, sign_bytes_shape c k msg h, sign_hex_length _ _, sign_hex_upper _ _⟩

/-- C8 witness: a `str` key yields the sentinel, a byte key a 64-char digest. -/
theorem claim_C8_witness :
    sign cStrTest (utf8 "m") = none ∧
    ∃ hex, sign cBytesTest (utf8 "m") = some hex ∧ hex.length = 64 ∧
      ∀ ch ∈ hex.data, ch ∈ upperHexChars :=
  ⟨(claim_C8_sign_sentinel cStrTest (utf8 "m")).2.1 "testkey" rfl,
   (claim_C8_sign_sentinel cBytesTest (utf8 "m")).2.2 (utf8 "testkey") rfl⟩


lemma fst_ite {α β : Type} (c : Prop) [inst : Decidable c] (p q : α × β) :
    (if c then p else q).1 = if c then p.1 else q.1 := by split <;> rfl

lemma snd_ite {α β : Type} (c : Prop) [inst : Decidable c] (p q : α × β) :
    (if c then p else q).2 = if c then p.2 else q.2 := by split <;> rfl

/-- The form dict POSTed by `refund_payment` (without the optional
notification url), with the `Signature` entry abstracted. -/
def refundFormData (c : Client) (cents : Int) (currency reference : String)
    (prid : Int) (sig : FormVal) : List (String × FormVal) :=
  [("AccountId", fvOfOptStr c.aid),
   ("Amount", .s (format2f cents)),
   ("Currency", .s currency),
   ("Reference", .s reference),
   ("PaymentType", .i (payment_type : Int)),
   ("PaymentRequestId", .i prid),
   ("Signature", sig)]

/-- Client with account id `"A1"` and a byte-string secret key. -/
def cA1 : Client :=
  { secret_key := some (.bytes (utf8 "testkey")), aid := some "A1",
    password := "p", username := "u", api_url := DEFAULT_BASE_API_URL,
    access_token := some "tok", debug := false }

/-- C2: the string `refund_payment` hands to the signer is exactly the
account id, the two-decimal amount, the currency, the reference, the
constant payment type 8 and the payment request id, joined by `/`; at the
claim's example inputs it is exactly `"A1/100.00/EUR/R1/8/55"`. -/
theorem claim_C2_refund_signature_string (c : Client) (A : String) (cents : Int)
    (cur ref : String) (prid : Int) (h : c.aid = some A) :
    refund_signature_data c cents cur ref prid =
      A ++ "/" ++ format2f cents ++ "/" ++ cur ++ "/" ++ ref ++ "/" ++
        toString payment_type ++ "/" ++ toString prid ∧
    refund_signature_data cA1 10000 "EUR" "R1" 55 = "A1/100.00/EUR/R1/8/55" ∧
    (∀ (o : Oracle) (nurl : Option String), cur ∈ SUPPORTED_CURRENCIES →
      ∃ extra, (refund_payment c o cents cur ref prid nurl).2 =
        [⟨generateUrl c "/mapi5/Wire/PayPopup",
          [("Content-Type", "application/x-www-form-urlencoded")],
          .form (refundFormData c cents cur ref prid
            (fvOfOptStr (sign c (utf8 (refund_signature_data c cents cur ref prid)))) ++
            extra)⟩]) := by
  refine ⟨by simp [refund_signature_data, h, pyOptStr], by decide, ?_⟩
  intro o nurl hcur
  rcases nurl with _ | u
  · refine ⟨[], ?_⟩
    rw [refund_payment, if_pos hcur]
    dsimp only
    rw [snd_ite, ite_self]
    rfl
  · by_cases hu : u = ""
    · subst hu
      refine ⟨[], ?_⟩
      rw [refund_payment, if_pos hcur]
      dsimp only
      rw [snd_ite, ite_self]
      rfl
    · refine ⟨[("NotificationUrl", FormVal.s u)], ?_⟩
      rw [refund_payment, if_pos hcur]
      dsimp only
      rw [if_neg hu, snd_ite, ite_self]
      rfl

/-- C4: a currency outside the supported list makes both `send_money` and
`refund_payment` raise the currency error before any HTTP request is
issued (the request trace is empty). -/
theorem claim_C4_currency_gate (c : Client) (o : Oracle) (env : SendEnv)
    (amt cur rec acct det bik ref : String) (cents prid : Int)
    (nurl : Option String) (h : cur ∉ SUPPORTED_CURRENCIES) :
    send_money c o env amt cur rec acct det bik =
      (.error (.attributeError currency_error_message), []) ∧
    refund_payment c o cents cur ref prid nurl =
      (.error (.attributeError currency_error_message), []) := by
  constructor
  · rw [send_money, if_neg h]
  · rw [refund_payment, if_neg h]

/-- C4 witness at currency `"USD"`. -/
theorem claim_C4_witness :
    send_money cA1 (fun _ => ⟨200, "", .jnull⟩) ⟨"u", "n", "t"⟩ "9.99" "USD" "r" "a" "d" "b" =
      (.error (.attributeError currency_error_message), []) ∧
    refund_payment cA1 (fun _ => ⟨200, "", .jnull⟩) 100 "USD" "R" 5 none =
      (.error (.attributeError currency_error_message), []) :=
  claim_C4_currency_gate cA1 (fun _ => ⟨200, "", .jnull⟩) ⟨"u", "n", "t"⟩
    "9.99" "USD" "r" "a" "d" "b" "R" 100 5 none (by decide)

/-- An oracle that answers 200 with `{"ResultCode": 0}` to everything. -/
def o200 : Oracle := fun _ => ⟨200, "", .jobj [("ResultCode", .jint 0)]⟩

/-- C2 witness at the claim's example inputs (aid "A1", amount 100.00,
currency EUR, reference "R1", payment request id 55). -/
theorem claim_C2_witness :
    refund_signature_data cA1 10000 "EUR" "R1" 55 =
      "A1" ++ "/" ++ format2f 10000 ++ "/" ++ "EUR" ++ "/" ++ "R1" ++ "/" ++
        toString payment_type ++ "/" ++ toString (55 : Int) ∧
    refund_signature_data cA1 10000 "EUR" "R1" 55 = "A1/100.00/EUR/R1/8/55" ∧
    ∃ extra, (refund_payment cA1 o200 10000 "EUR" "R1" 55 none).2 =
      [⟨generateUrl cA1 "/mapi5/Wire/PayPopup",
        [("Content-Type", "application/x-www-form-urlencoded")],
        .form (refundFormData cA1 10000 "EUR" "R1" 55
          (fvOfOptStr (sign cA1 (utf8 (refund_signature_data cA1 10000 "EUR" "R1" 55)))) ++
          extra)⟩] := by
  obtain ⟨h1, h2, h3⟩ :=
    claim_C2_refund_signature_string cA1 "A1" 10000 "EUR" "R1" 55 rfl
  exact ⟨h1, h2, h3 o200 none (by decide)⟩

/-- C9: with a text `str` secret key — the type credentials arrive as —
`sign` returns the `None` sentinel (`hmac.new` raises `TypeError`), and
`refund_payment` does not check for it: it still POSTs the form, with the
`Signature` field set to `None`, and succeeds on a 200 response. -/
theorem claim_C9_unchecked_sentinel (s : String) (c : Client) (o : Oracle)
    (cents : Int) (ref : String) (prid : Int)
    (h : c.secret_key = some (.str s)) :
    sign c (utf8 (refund_signature_data c cents "EUR" ref prid)) = none ∧
    (refund_payment c o cents "EUR" ref prid none).2 =
      [⟨generateUrl c "/mapi5/Wire/PayPopup",
        [("Content-Type", "application/x-www-form-urlencoded")],
        .form (refundFormData c cents "EUR" ref prid FormVal.null)⟩] ∧
    (∀ j t, o ⟨generateUrl c "/mapi5/Wire/PayPopup",
        [("Content-Type", "application/x-www-form-urlencoded")],
        .form (refundFormData c cents "EUR" ref prid FormVal.null)⟩ = ⟨200, t, j⟩ →
      (refund_payment c o cents "EUR" ref prid none).1 = .ok j) := by
  have hs : sign c (utf8 (refund_signature_data c cents "EUR" ref prid)) = none := by
    simp [sign, h]
  refine ⟨hs, ?_, ?_⟩
  · rw [refund_payment, if_pos (by decide : "EUR" ∈ SUPPORTED_CURRENCIES)]
    dsimp only
    rw [hs]
    rw [snd_ite, ite_self]
    rfl
  · intro j t hresp
    rw [show (refundFormData c cents "EUR" ref prid FormVal.null) =
      [("AccountId", fvOfOptStr c.aid), ("Amount", FormVal.s (format2f cents)),
       ("Currency", FormVal.s "EUR"), ("Reference", FormVal.s ref),
       ("PaymentType", FormVal.i (payment_type : Int)), ("PaymentRequestId", FormVal.i prid),
       ("Signature", FormVal.null)] from rfl] at hresp
    rw [refund_payment, if_pos (by decide : "EUR" ∈ SUPPORTED_CURRENCIES)]
    dsimp only
    rw [hs, show fvOfOptStr (none : Option String) = FormVal.null from rfl]
    rw [fst_ite, hresp]
    rfl

/-- C9 witness: a concrete `str`-keyed client POSTs the refund form with a
null signature and succeeds. -/
theorem claim_C9_witness :
    sign cStrTest (utf8 (refund_signature_data cStrTest 10000 "EUR" "R1" 55)) = none ∧
    (refund_payment cStrTest o200 10000 "EUR" "R1" 55 none).2 =
      [⟨generateUrl cStrTest "/mapi5/Wire/PayPopup",
        [("Content-Type", "application/x-www-form-urlencoded")],
        .form (refundFormData cStrTest 10000 "EUR" "R1" 55 FormVal.null)⟩] ∧
    (refund_payment cStrTest o200 10000 "EUR" "R1" 55 none).1 =
      .ok (.jobj [("ResultCode", .jint 0)]) := by
  obtain ⟨h1, h2, h3⟩ :=
    claim_C9_unchecked_sentinel "testkey" cStrTest o200 10000 "R1" 55 rfl
  exact ⟨h1, h2, h3 (.jobj [("ResultCode", .jint 0)]) "" rfl⟩

/-- C10: `create_payment` always sets `MerchantIdentification.ProjectId` to
the client's account id `aid`, whatever the payment method and extra
keyword arguments are (the `pid` attribute is never assigned in the source,
and the constructor takes no project id, so the model's `Client` carries
none). -/
theorem claim_C10_projectid_is_aid (c : Client) (code : String) (amount : Rat)
    (cur mref nurl surl eurl : String) (kwargs : List (String × String)) :
    (jlookup (create_payment_payload c code amount cur mref nurl surl eurl kwargs)
        "MerchantIdentification").bind (fun m => jlookup m "ProjectId") =
      some (jOfOpt c.aid) := by
  simp only [create_payment_payload]
  split <;> split <;> rfl


/-- The token request the client sends from a given pre-token state. -/
def tokenRequest (c : Client) : Request :=
  ⟨generateUrl c "/api/oauth2/token", prepare_headers_basic c,
   .urlenc [("grant_type", "client_credentials")]⟩

lemma fetchToken_trace (c : Client) (o : Oracle) :
    (fetchToken c o).2 = [tokenRequest c] := by
  rw [fetchToken, send_request]
  rw [show (⟨generateUrl c "/api/oauth2/token", prepare_headers_basic c,
      .urlenc [("grant_type", "client_credentials")]⟩ : Request) = tokenRequest c from rfl]
  by_cases hst : (o (tokenRequest c)).status = 200
  · rw [if_pos hst]
    rcases hj : jlookup ((o (tokenRequest c)).json) "access_token" with _ | v <;>
      simp [mbind, hj]
  · rw [if_neg hst]
    rfl

lemma fetchToken_ok (c : Client) (o : Oracle) (t : String) (j : JVal) (bt : String)
    (h1 : o (tokenRequest c) = ⟨200, bt, j⟩)
    (h2 : jlookup j "access_token" = some (.jstr t)) :
    (fetchToken c o).1 = .ok t := by
  rw [fetchToken, send_request]
  rw [show (⟨generateUrl c "/api/oauth2/token", prepare_headers_basic c,
      .urlenc [("grant_type", "client_credentials")]⟩ : Request) = tokenRequest c from rfl]
  rw [h1]
  simp [mbind, h2, pyScalarStr]

/-- An oracle whose token endpoint answers 200 with an empty-string
`access_token`. -/
def oEmptyTok : Oracle := fun _ => ⟨200, "", .jobj [("access_token", .jstr "")]⟩

/-- The client that `Trustpay(password="p", username="u")` constructs when
the token endpoint returns an empty-string token. -/
def c6client : Client :=
  { secret_key := none, aid := none, password := "p", username := "u",
    api_url := DEFAULT_BASE_API_URL, access_token := some "", debug := false }

/-- C6 counterexample: on a constructor-built client holding the cached
empty-string token, two sequential `get_access_token` calls issue two
token-endpoint requests (not at most one): Python truthiness treats the
cached `""` as no cache, and `get_access_token` never stores what it
fetches. -/
theorem claim_C6_counterexample :
    (mkTrustpay "p" "u" none none none false oEmptyTok).1 = .ok c6client ∧
    ¬ ((get_access_token c6client oEmptyTok).2.length +
       (get_access_token c6client oEmptyTok).2.length ≤ 1) :=
  ⟨rfl, by decide⟩

/-- C6 (amended): if a cached non-empty access token exists,
`get_access_token` returns it unconditionally with no request (no expiry
check), so two sequential calls on such a client issue no token-endpoint
request at all (hence at most one). -/
theorem claim_C6_token_cache (c : Client) (o : Oracle) (t : String)
    (h : c.access_token = some t) (hne : t ≠ "") :
    get_access_token c o = (.ok t, []) ∧
    (get_access_token c o).2 ++ (get_access_token c o).2 = [] := by
  have h1 : get_access_token c o = (.ok t, []) := by
    rw [get_access_token.eq_def, h]
    dsimp only
    rw [if_neg hne]
  exact ⟨h1, by rw [h1]; rfl⟩

/-- C6 witness: a client holding the non-empty token `"tok"`. -/
theorem claim_C6_witness :
    get_access_token cA1 o200 = (.ok "tok", []) ∧
    (get_access_token cA1 o200).2 ++ (get_access_token cA1 o200).2 = [] :=
  claim_C6_token_cache cA1 o200 "tok" rfl (by decide)

/-- An oracle whose token endpoint answers 200 with token `"tok"`. -/
def oTok : Oracle := fun _ => ⟨200, "", .jobj [("access_token", .jstr "tok")]⟩

/-- C7 counterexample: constructing a client does by itself contact the
token endpoint — `__init__` calls `get_access_token`, issuing exactly one
request, to `/api/oauth2/token`; the token is not lazily absent after
construction. -/
theorem claim_C7_counterexample :
    ((mkTrustpay "p" "u" none none none false oTok).2).map (fun r => r.url) =
      ["https://api.trustpay.eu/api/oauth2/token"] ∧
    (mkTrustpay "p" "u" none none none false oTok).1 =
      .ok { secret_key := none, aid := none, password := "p", username := "u",
            api_url := DEFAULT_BASE_API_URL, access_token := some "tok",
            debug := false } :=
  ⟨rfl, rfl⟩

/-- C7 (amended): the access token is eagerly populated — the constructor
itself issues exactly one HTTP request, to the token endpoint, whatever the
transport answers — and on a 200 response carrying a string token the
constructed client caches exactly that token for its lifetime (no operation
mutates a constructed client; only constructing a new client replaces the
cache). -/
theorem claim_C7_eager_token (p u : String) (sk : Option SKey)
    (aid : Option String) (url : Option String) (dbg : Bool) (o : Oracle) :
    ((mkTrustpay p u sk aid url dbg o).2).map (fun r => r.url) =
      [resolveUrl url ++ "/api/oauth2/token"] ∧
    (∀ t j bt,
      o (tokenRequest ⟨sk, aid, p, u, resolveUrl url, none, false⟩) = ⟨200, bt, j⟩ →
      jlookup j "access_token" = some (.jstr t) →
      (mkTrustpay p u sk aid url dbg o).1 =
        .ok ⟨sk, aid, p, u, resolveUrl url, some t, dbg⟩) := by
  have hget : get_access_token ⟨sk, aid, p, u, resolveUrl url, none, false⟩ o =
      fetchToken ⟨sk, aid, p, u, resolveUrl url, none, false⟩ o := rfl
  constructor
  · simp only [mkTrustpay]
    rw [hget]
    rcases hres : fetchToken ⟨sk, aid, p, u, resolveUrl url, none, false⟩ o with ⟨res, reqs⟩
    have htrace : reqs = [tokenRequest ⟨sk, aid, p, u, resolveUrl url, none, false⟩] := by
      have h := fetchToken_trace ⟨sk, aid, p, u, resolveUrl url, none, false⟩ o
      rw [hres] at h
      exact h
    rcases res with e | t <;>
      simp [htrace, tokenRequest, generateUrl]
  · intro t j bt h1 h2
    have hok : (fetchToken ⟨sk, aid, p, u, resolveUrl url, none, false⟩ o).1 = .ok t :=
      fetchToken_ok _ o t j bt h1 h2
    simp only [mkTrustpay]
    rw [hget]
    rcases hres : fetchToken ⟨sk, aid, p, u, resolveUrl url, none, false⟩ o with ⟨res, reqs⟩
    rw [hres] at hok
    dsimp only at hok
    subst hok
    rfl

/-- C7 witness at a concrete constructor call. -/
theorem claim_C7_witness :
    ((mkTrustpay "p" "u" none none none false oTok).2).map (fun r => r.url) =
      [resolveUrl none ++ "/api/oauth2/token"] ∧
    (mkTrustpay "p" "u" none none none false oTok).1 =
      .ok ⟨none, none, "p", "u", resolveUrl none, some "tok", false⟩ := by
  obtain ⟨h1, h2⟩ := claim_C7_eager_token "p" "u" none none none false oTok
  exact ⟨h1, h2 "tok" (.jobj [("access_token", .jstr "tok")]) "" rfl rfl⟩


/-- Client with no cached token (the state in which the token endpoint
itself is called). -/
def cNoTok : Client :=
  { secret_key := none, aid := some "A1", password := "p", username := "u",
    api_url := DEFAULT_BASE_API_URL, access_token := none, debug := false }

/-- An oracle answering every request with the given status and body. -/
def oFail (status : Nat) (body : String) : Oracle := fun _ => ⟨status, body, .jnull⟩

def detailsJson : JVal :=
  .jobj [("AccountDetails",
    .jobj [("AccountId", .jint 123), ("AccountName", .jstr "NAME")])]

/-- An oracle that serves account details normally but fails order
creation with the given status and body. -/
def oOrderFail (status : Nat) (body : String) : Oracle := fun r =>
  if r.url = DEFAULT_BASE_API_URL ++ "/ApiBanking/CreateOrder"
  then ⟨status, body, .jnull⟩ else ⟨200, "", detailsJson⟩

def envTest : SendEnv := ⟨"abcdef-0123", "2026-01-01T00:00:00.5", "2026-01-01"⟩

/-- C5: for each of the five endpoints (token, account details, order
creation, payment, refund), a non-200 response raises the one uniform
`PaymentException`, whose message carries the raw response body and the
original status code; there is no per-status differentiation and no local
recovery. -/
theorem claim_C5_payment_error (status : Nat) (body : String) (h : status ≠ 200) :
    (get_access_token cNoTok (oFail status body)).1 =
      .error (.paymentException
        ("Trustpay error: " ++ body ++ ". Error code: " ++ toString status)) ∧
    (account_details cA1 (oFail status body)).1 =
      .error (.paymentException
        ("Trustpay error: " ++ body ++ ". Error code: " ++ toString status)) ∧
    (send_money cA1 (oOrderFail status body) envTest "9.99" "EUR" "rec" "IBAN1" "det"
        "NOTPROVIDED").1 =
      .error (.paymentException
        ("Trustpay error: " ++ body ++ ". Error code: " ++ toString status)) ∧
    (create_payment cA1 (oFail status body) "Card" 1 "EUR" "MR" "N" "S" "E" []).1 =
      .error (.paymentException
        ("Trustpay error: " ++ body ++ ". Error code: " ++ toString status)) ∧
    (refund_payment cA1 (oFail status body) 100 "EUR" "R" 5 none).1 =
      .error (.paymentException
        ("Trustpay refund error: " ++ body ++ ". Error code: " ++ toString status)) := by
  refine ⟨?_, ?_, ?_, ?_, ?_⟩
  · rw [show get_access_token cNoTok (oFail status body) =
      fetchToken cNoTok (oFail status body) from rfl]
    rw [fetchToken, send_request]
    split
    · exact absurd ‹_› h
    · rfl
  · show (mbind (send_request (oFail status body)
        (generateUrl cA1 "/ApiBanking/GetAccountDetails")
        (.json (.jobj [("AccountId", .jstr "A1")]))
        [("Authorization", "bearer tok"), ("Content-Type", "text/json")])
        (fun j => match jlookup j "AccountDetails" with
          | some v => ((.ok v : Except Err JVal), ([] : List Request))
          | none => (.error (.keyError "AccountDetails"), []))).1 = _
    rw [send_request]
    split
    · exact absurd ‹_› h
    · rfl
  · show (send_request (oOrderFail status body)
        (generateUrl cA1 "/ApiBanking/CreateOrder")
        (.json (.jobj [("Xml", .jstr (order_data
          ⟨"123-abcdef0123", "2026-01-01T00:00:00", "2026-01-01", "NAME", "123",
           "EUR", "9.99", "NOTPROVIDED", "rec", "IBAN1", "det"⟩))]))
        [("Authorization", "bearer tok"), ("Content-Type", "text/json")]).1 = _
    rw [send_request]
    split
    · exact absurd ‹_› h
    · rfl
  · show (send_request (oFail status body)
        (generateUrl cA1 "/api/Payments/Payment")
        (.json (create_payment_payload cA1 "Card" 1 "EUR" "MR" "N" "S" "E" []))
        [("Authorization", "bearer tok"), ("Content-Type", "text/json")]).1 = _
    rw [send_request]
    split
    · exact absurd ‹_› h
    · rfl
  · rw [refund_payment, if_pos (by decide : ("EUR" : String) ∈ SUPPORTED_CURRENCIES)]
    dsimp only
    split
    · exact absurd ‹_› h
    · rfl

/-- C5 witness at status 404, body `"oops"`. -/
theorem claim_C5_witness :
    (get_access_token cNoTok (oFail 404 "oops")).1 =
      .error (.paymentException
        ("Trustpay error: " ++ "oops" ++ ". Error code: " ++ toString (404 : Nat))) ∧
    (account_details cA1 (oFail 404 "oops")).1 =
      .error (.paymentException
        ("Trustpay error: " ++ "oops" ++ ". Error code: " ++ toString (404 : Nat))) ∧
    (send_money cA1 (oOrderFail 404 "oops") envTest "9.99" "EUR" "rec" "IBAN1" "det"
        "NOTPROVIDED").1 =
      .error (.paymentException
        ("Trustpay error: " ++ "oops" ++ ". Error code: " ++ toString (404 : Nat))) ∧
    (create_payment cA1 (oFail 404 "oops") "Card" 1 "EUR" "MR" "N" "S" "E" []).1 =
      .error (.paymentException
        ("Trustpay error: " ++ "oops" ++ ". Error code: " ++ toString (404 : Nat))) ∧
    (refund_payment cA1 (oFail 404 "oops") 100 "EUR" "R" 5 none).1 =
      .error (.paymentException
        ("Trustpay refund error: " ++ "oops" ++ ". Error code: " ++ toString (404 : Nat))) :=
  claim_C5_payment_error 404 "oops" (by decide)


/-- A distinctive fully bound field set: each value occurs nowhere in the
fixed template text and in no other value. -/
def c3sample : OrderConfig :=
  { MessageId := "QAQ", CreationDateTime := "QBQ", RequestedExecutionDate := "QCQ",
    DebtorName := "QDQ", DebtorAccount := "QEQ", Currency := "QFQ", Amount := "QGQ",
    CreditorBankBic := "QHQ", CreditorName := "QIQ", CreditorAccount := "QJQ",
    Description := "QKQ" }

/-- The same field set with `Amount := "1"`, a value that also occurs in
the fixed template text. -/
def c3cex : OrderConfig :=
  { MessageId := "QAQ", CreationDateTime := "QBQ", RequestedExecutionDate := "QCQ",
    DebtorName := "QDQ", DebtorAccount := "QEQ", Currency := "QFQ", Amount := "1",
    CreditorBankBic := "QHQ", CreditorName := "QIQ", CreditorAccount := "QJQ",
    Description := "QKQ" }

/-- C3 counterexample: for the fully bound field set `c3cex` the substituted
document contains nine occurrences of the substituted value `"1"` (eight
from the fixed template text), not exactly one. -/
theorem claim_C3_counterexample :
    "1" ∈ cfgValues c3cex ∧
    countOccs ("1").data (order_data c3cex).data ≠ 1 ∧
    countOccs ("1").data (order_data c3cex).data = 9 :=
  ⟨by decide, by decide, by decide⟩

/-- The oracle serving the account details `send_money` fetches. -/
def oDetails (acctId : Int) (acctName : String) : Oracle := fun _ =>
  ⟨200, "", .jobj [("AccountDetails",
    .jobj [("AccountId", .jint acctId), ("AccountName", .jstr acctName)])]⟩

/-- The `config` dict `send_money` binds from the fetched account details,
the system environment and its arguments. -/
def sendConfig (acctId : Int) (acctName : String) (env : SendEnv)
    (amount currency recipient account details bank_bik : String) : OrderConfig :=
  { MessageId := toString acctId ++ "-" ++ uuidCode env.uuid,
    CreationDateTime := isoNoFrac env.nowIso,
    RequestedExecutionDate := env.todayIso,
    DebtorName := acctName,
    DebtorAccount := toString acctId,
    Currency := currency,
    Amount := amount,
    CreditorBankBic := bank_bik,
    CreditorName := recipient,
    CreditorAccount := account,
    Description := details }

/-- C3 (amended): `send_money`'s order payload is the fixed
`pain.001.001.03` template with each of its eleven placeholders (each
occurring exactly once) replaced by its supplied value in one
left-to-right pass and every newline replaced by a single space, wrapped
as the JSON object with single field `Xml`.  Every newline-free
substituted value occurs at least once in the resulting document; for a
distinctive field set such as `c3sample` every substituted value occurs
exactly once and no unresolved placeholder remains, but a value that also
appears in the fixed template text (such as `Amount = "1"`) occurs more
than once. -/
theorem claim_C3_order_xml :
    (∀ cfg : OrderConfig, (order_data cfg).data = List.map nlRepl (orderSubst cfg)) ∧
    (∀ cfg : OrderConfig, ∀ v ∈ cfgValues cfg, (∀ ch ∈ v.data, ch ≠ Char.ofNat 10) →
      1 ≤ countOccs v.data (order_data cfg).data) ∧
    (((cfgValues c3sample).all
        (fun v => countOccs v.data (order_data c3sample).data == 1)) = true ∧
      countOccs [lbrace] (order_data c3sample).data = 0) ∧
    (∀ (acctId : Int) (acctName : String) (env : SendEnv)
        (amt rec acct det bik : String),
      (send_money cA1 (oDetails acctId acctName) env amt "EUR" rec acct det bik).2.map
          (fun r => r.body) =
        [.json (.jobj [("AccountId", .jstr "A1")]),
         .json (.jobj [("Xml", .jstr (order_data
           (sendConfig acctId acctName env amt "EUR" rec acct det bik)))])]) := by
  refine ⟨order_data_decomp, ?_, ⟨by decide, by decide⟩, ?_⟩
  · intro cfg v hv hnl
    rw [order_data_decomp cfg]
    simp only [orderSubst, List.map_append]
    simp only [cfgValues, List.mem_cons, List.not_mem_nil, or_false] at hv
    rcases hv with rfl | rfl | rfl | rfl | rfl | rfl | rfl | rfl | rfl | rfl | rfl
    · iterate 1 (apply one_le_countOccs_append)
      rw [mapNL_id _ hnl]
      exact one_le_countOccs_head _ _
    · iterate 3 (apply one_le_countOccs_append)
      rw [mapNL_id _ hnl]
      exact one_le_countOccs_head _ _
    · iterate 5 (apply one_le_countOccs_append)
      rw [mapNL_id _ hnl]
      exact one_le_countOccs_head _ _
    · iterate 7 (apply one_le_countOccs_append)
      rw [mapNL_id _ hnl]
      exact one_le_countOccs_head _ _
    · iterate 9 (apply one_le_countOccs_append)
      rw [mapNL_id _ hnl]
      exact one_le_countOccs_head _ _
    · iterate 11 (apply one_le_countOccs_append)
      rw [mapNL_id _ hnl]
      exact one_le_countOccs_head _ _
    · iterate 13 (apply one_le_countOccs_append)
      rw [mapNL_id _ hnl]
      exact one_le_countOccs_head _ _
    · iterate 15 (apply one_le_countOccs_append)
      rw [mapNL_id _ hnl]
      exact one_le_countOccs_head _ _
    · iterate 17 (apply one_le_countOccs_append)
      rw [mapNL_id _ hnl]
      exact one_le_countOccs_head _ _
    · iterate 19 (apply one_le_countOccs_append)
      rw [mapNL_id _ hnl]
      exact one_le_countOccs_head _ _
    · iterate 21 (apply one_le_countOccs_append)
      rw [mapNL_id _ hnl]
      exact one_le_countOccs_head _ _
  · intro acctId acctName env amt rec acct det bik
    rfl

/-- C3 witness: at the distinctive sample each value occurs (at least, in
fact exactly) once. -/
theorem claim_C3_witness :
    1 ≤ countOccs ("QAQ").data (order_data c3sample).data ∧
    ((cfgValues c3sample).all
      (fun v => countOccs v.data (order_data c3sample).data == 1)) = true := by
  obtain ⟨-, hb, hc, -⟩ := claim_C3_order_xml
  exact ⟨hb c3sample "QAQ" (by decide) (by decide), hc.1⟩

end TP
